import Mathlib

/-!
Verification of the AgniRakshak wildfire risk/threat pipeline.

The Python sources are shallowly embedded here:
* `simple_predict.py`  — `WildfirePredictor` (5-tier risk classification,
  lightning fetch with silent default, `predict_dict`);
* `wildfire_model.py`  — `WildfirePredictionAPI._get_risk_level` and its
  scalar `get_lightning_data`;
* `app_fixed.py`       — the Flask routes `/predict` and `/analyze-threat`
  (status-code behaviour);
* `Threat_Predictor/wildfire_inference_system.py` — `_predict_ros` clamp,
  `_calculate_fire_behavior`, `_generate_threat_assessment`.

Python floats are modelled as rationals (ℚ); `int(x)` for `x ≥ 0` is the
integer floor.  The external physics-formula module
(`live_api-Inference-follow_data.py`) is loaded dynamically by the source
and is not part of the repository snapshot; where its functions are needed
they are passed as explicit function parameters, or modelled from the spec
(marked as such).
-/

/- ----------------------------------------------------------------------
   5-tier risk classification
   `simple_predict.py` lines 94-95 / 143-144:
     risk_levels = ['Low', 'Moderate', 'High', 'Very High', 'Extreme']
     risk_index = min(int(probability * 5), 4)
   ---------------------------------------------------------------------- -/

/-- The label list `risk_levels` of `WildfirePredictor.predict` /
`predict_dict`. -/
def risk_levels : List String :=
  ["Low", "Moderate", "High", "Very High", "Extreme"]

/-- `min(int(probability * 5), 4)` from `simple_predict.py`.  For a
probability `p ≥ 0`, Python `int` truncation coincides with the floor. -/
def risk_index (p : ℚ) : ℕ :=
  min (Int.toNat ⌊p * 5⌋) 4

/-- The 5-tier classifier of `WildfirePredictor`: index the label list with
the clamped floor index. -/
def classify_risk (p : ℚ) : String :=
  risk_levels.getD (risk_index p) "Low"

/-- `WildfirePredictionAPI._get_risk_level` (`wildfire_model.py` lines
203-214): a top-down threshold cascade over the probability. -/
def get_risk_level (p : ℚ) : String :=
  if p < 1/5 then "Low"
  else if p < 2/5 then "Moderate"
  else if p < 3/5 then "High"
  else if p < 4/5 then "Very High"
  else "Extreme"

lemma risk_index_eq_of_bucket (p : ℚ) (k : ℕ) (hk : k ≤ 3)
    (h1 : (k : ℚ) / 5 ≤ p) (h2 : p < (k + 1 : ℚ) / 5) :
    risk_index p = k := by
  have hfloor : ⌊p * 5⌋ = (k : ℤ) := by
    rw [Int.floor_eq_iff]
    constructor
    · push_cast
      nlinarith
    · push_cast
      nlinarith
  unfold risk_index
  rw [hfloor]
  simp
  omega

lemma risk_index_eq_four (p : ℚ) (h1 : (4 : ℚ) / 5 ≤ p) :
    risk_index p = 4 := by
  have hfloor : (4 : ℤ) ≤ ⌊p * 5⌋ := by
    rw [Int.le_floor]
    push_cast
    nlinarith
  unfold risk_index
  omega

/-- Shared bucket facts about the clamped-floor classifier. -/
lemma classify_risk_bucket_facts (p : ℚ) (hp0 : 0 ≤ p) (hp1 : p ≤ 1) :
    (p < 1/5 → classify_risk p = "Low") ∧
    (1/5 ≤ p → p < 2/5 → classify_risk p = "Moderate") ∧
    (2/5 ≤ p → p < 3/5 → classify_risk p = "High") ∧
    (3/5 ≤ p → p < 4/5 → classify_risk p = "Very High") ∧
    (4/5 ≤ p → classify_risk p = "Extreme") ∧
    risk_index p ≤ 4 ∧ (p = 1 → risk_index p = 4) := by
  refine ⟨?_, ?_, ?_, ?_, ?_, ?_, ?_⟩
  · intro h
    have hk : risk_index p = 0 :=
      risk_index_eq_of_bucket p 0 (by norm_num) (by push_cast; linarith)
        (by push_cast; linarith)
    unfold classify_risk
    rw [hk]
    rfl
  · intro hl hr
    have hk : risk_index p = 1 :=
      risk_index_eq_of_bucket p 1 (by norm_num) (by push_cast; linarith)
        (by push_cast; linarith)
    unfold classify_risk
    rw [hk]
    rfl
  · intro hl hr
    have hk : risk_index p = 2 :=
      risk_index_eq_of_bucket p 2 (by norm_num) (by push_cast; linarith)
        (by push_cast; linarith)
    unfold classify_risk
    rw [hk]
    rfl
  · intro hl hr
    have hk : risk_index p = 3 :=
      risk_index_eq_of_bucket p 3 (by norm_num) (by push_cast; linarith)
        (by push_cast; linarith)
    unfold classify_risk
    rw [hk]
    rfl
  · intro hl
    have hk : risk_index p = 4 := risk_index_eq_four p hl
    unfold classify_risk
    rw [hk]
    rfl
  · unfold risk_index
    omega
  · intro hp
    exact risk_index_eq_four p (by rw [hp]; norm_num)

/-- C1: `classify_risk` maps a probability `p ∈ [0,1]` to the five labels by
`index = min(floor(p * 5), 4)`: `[0, 0.2) → Low`, `[0.2, 0.4) → Moderate`,
`[0.4, 0.6) → High`, `[0.6, 0.8) → Very High`, `[0.8, 1] → Extreme`, with
`p = 1` clamped to index 4 rather than 5. -/
theorem classify_risk_buckets (p : ℚ) (hp0 : 0 ≤ p) (hp1 : p ≤ 1) :
    (p < 1/5 → classify_risk p = "Low") ∧
    (1/5 ≤ p → p < 2/5 → classify_risk p = "Moderate") ∧
    (2/5 ≤ p → p < 3/5 → classify_risk p = "High") ∧
    (3/5 ≤ p → p < 4/5 → classify_risk p = "Very High") ∧
    (4/5 ≤ p → classify_risk p = "Extreme") ∧
    risk_index p ≤ 4 ∧ (p = 1 → risk_index p = 4) :=
  classify_risk_bucket_facts p hp0 hp1

/-- Witness for C1 at the concrete probabilities 0 and 1. -/
theorem classify_risk_buckets_witness :
    classify_risk 0 = "Low" ∧ classify_risk 1 = "Extreme" :=
  ⟨(classify_risk_buckets 0 le_rfl zero_le_one).1 (by norm_num),
   (classify_risk_buckets 1 zero_le_one le_rfl).2.2.2.2.1 (by norm_num)⟩

/-- C9: the two independent risk classifiers agree on `[0,1]`: indexing
`risk_levels` with `min(int(p * 5), 4)` (`WildfirePredictor.predict_dict`)
returns the same label as the threshold cascade of
`WildfirePredictionAPI._get_risk_level`. -/
theorem classify_risk_eq_get_risk_level (p : ℚ) (hp0 : 0 ≤ p) (hp1 : p ≤ 1) :
    classify_risk p = get_risk_level p := by
  have hb := classify_risk_bucket_facts p hp0 hp1
  by_cases h1 : p < 1/5
  · rw [hb.1 h1]
    unfold get_risk_level
    rw [if_pos h1]
  · by_cases h2 : p < 2/5
    · rw [hb.2.1 (by linarith) h2]
      unfold get_risk_level
      rw [if_neg h1, if_pos h2]
    · by_cases h3 : p < 3/5
      · rw [hb.2.2.1 (by linarith) h3]
        unfold get_risk_level
        rw [if_neg h1, if_neg h2, if_pos h3]
      · by_cases h4 : p < 4/5
        · rw [hb.2.2.2.1 (by linarith) h4]
          unfold get_risk_level
          rw [if_neg h1, if_neg h2, if_neg h3, if_pos h4]
        · rw [hb.2.2.2.2.1 (by linarith)]
          unfold get_risk_level
          rw [if_neg h1, if_neg h2, if_neg h3, if_neg h4]

/-- Witness for C9 at the concrete probability 1/2. -/
theorem classify_risk_eq_get_risk_level_witness :
    classify_risk (1/2) = get_risk_level (1/2) :=
  classify_risk_eq_get_risk_level (1/2) (by simp) (by norm_num)

/- ----------------------------------------------------------------------
   Threat aggregation
   `wildfire_inference_system.py` `_generate_threat_assessment`
   (lines 249-289) and the occurrence-probability line of
   `_calculate_fire_behavior` (line 210).
   ---------------------------------------------------------------------- -/

/-- The threat-level cascade of `_generate_threat_assessment` (lines
256-268): nested if/elif evaluated top-down, first match wins. -/
def threat_level (expected_threat : ℚ) (severity_class : String) : String :=
  if expected_threat > 7/10 ∨ severity_class = "Extreme" then "EXTREME"
  else if expected_threat > 1/2 ∨ severity_class = "High" then "HIGH"
  else if expected_threat > 3/10 ∨ severity_class = "Moderate" then "MODERATE"
  else "LOW"

/-- The threat-colour emoji chosen alongside the level (same cascade). -/
def threat_color (expected_threat : ℚ) (severity_class : String) : String :=
  if expected_threat > 7/10 ∨ severity_class = "Extreme" then "🔴"
  else if expected_threat > 1/2 ∨ severity_class = "High" then "🟠"
  else if expected_threat > 3/10 ∨ severity_class = "Moderate" then "🟡"
  else "🟢"

/-- The `concerns` list of `_generate_threat_assessment` (lines 270-279):
four independently evaluated flags appended in a fixed order. -/
def key_concerns (crown_fire_score spotting_distance_km
    time_to_burn_hours : ℚ) (containment : String) : List String :=
  (if crown_fire_score > 60 then ["High crown fire potential"] else []) ++
  (if spotting_distance_km > 2 then ["Long-range spotting risk"] else []) ++
  (if time_to_burn_hours < 2 then ["Rapid fire spread"] else []) ++
  (if containment = "Hard" ∨ containment = "Very difficult" then
    ["Difficult suppression conditions"] else [])

/-- `occurrence_prob = min(1.0, severity_idx * (crown_score / 100.0))` from
`_calculate_fire_behavior` line 210. -/
def occurrence_probability (severity_idx crown_score : ℚ) : ℚ :=
  min 1 (severity_idx * (crown_score / 100))

/-- The `fire_metrics` record built by `_calculate_fire_behavior`
(lines 213-245), with the Python dict keys as fields. -/
structure FireBehaviorMetrics where
  ros_base_m_per_min : ℚ
  ros_effective_m_per_min : ℚ
  slope_multiplier : ℚ
  aspect_factor : ℚ
  fuel_load_kg_m2 : ℚ
  fuel_moisture_pct : ℚ
  intensity_kW_per_m : ℚ
  flame_length_m : ℚ
  severity_index : ℚ
  severity_class : String
  crown_fire_score : ℚ
  crown_fire_class : String
  spotting_distance_km : ℚ
  time_to_burn_5km2_hours : ℚ
  damage_estimate_rs : ℚ
  containment_difficulty : String
  occurrence_probability : ℚ
  expected_threat : ℚ
deriving DecidableEq, Repr

/-- The `assessment` record returned by `_generate_threat_assessment`
(lines 281-287). -/
structure ThreatAssessment where
  threat_level : String
  threat_color : String
  expected_threat_score : ℚ
  key_concerns : List String
  summary : String
deriving DecidableEq, Repr

/-- `WildfireInferenceSystem._generate_threat_assessment` (lines 249-289):
cascade the threat level, collect the concern flags, and build the summary
template from level, severity class and crown class. -/
def assess_threat (m : FireBehaviorMetrics) : ThreatAssessment :=
  let level := threat_level m.expected_threat m.severity_class
  let color := threat_color m.expected_threat m.severity_class
  { threat_level := level
    threat_color := color
    expected_threat_score := m.expected_threat
    key_concerns := key_concerns m.crown_fire_score m.spotting_distance_km
      m.time_to_burn_5km2_hours m.containment_difficulty
    summary := color ++ " " ++ level ++ " wildfire threat with " ++
      m.severity_class.toLower ++ " severity and " ++
      m.crown_fire_class.toLower ++ " crown fire potential" }

/-- Case analysis of the threat-level cascade. -/
lemma threat_level_cases (et : ℚ) (sc : String) :
    (threat_level et sc = "EXTREME" ↔ (et > 7/10 ∨ sc = "Extreme")) ∧
    (threat_level et sc = "HIGH" ↔
      (¬(et > 7/10 ∨ sc = "Extreme") ∧ (et > 1/2 ∨ sc = "High"))) ∧
    (threat_level et sc = "MODERATE" ↔
      (¬(et > 7/10 ∨ sc = "Extreme") ∧ ¬(et > 1/2 ∨ sc = "High") ∧
       (et > 3/10 ∨ sc = "Moderate"))) ∧
    (threat_level et sc = "LOW" ↔
      (¬(et > 7/10 ∨ sc = "Extreme") ∧ ¬(et > 1/2 ∨ sc = "High") ∧
       ¬(et > 3/10 ∨ sc = "Moderate"))) := by
  unfold threat_level
  split_ifs with h1 h2 h3 <;>
    refine ⟨?_, ?_, ?_, ?_⟩ <;>
    simp only [String.reduceEq] <;>
    tauto

/-- C2: the threat level of `assess_threat` is the top-down first-match
cascade over `expected_threat` and `severity_class`; in particular
`severity_class = "Extreme"` with `expected_threat = 0.1` still yields
`EXTREME`. -/
theorem assess_threat_level_cascade (m : FireBehaviorMetrics) (et : ℚ)
    (sc : String) :
    (assess_threat m).threat_level
        = threat_level m.expected_threat m.severity_class ∧
    (threat_level et sc = "EXTREME" ↔ (et > 7/10 ∨ sc = "Extreme")) ∧
    (threat_level et sc = "HIGH" ↔
      (¬(et > 7/10 ∨ sc = "Extreme") ∧ (et > 1/2 ∨ sc = "High"))) ∧
    (threat_level et sc = "MODERATE" ↔
      (¬(et > 7/10 ∨ sc = "Extreme") ∧ ¬(et > 1/2 ∨ sc = "High") ∧
       (et > 3/10 ∨ sc = "Moderate"))) ∧
    (threat_level et sc = "LOW" ↔
      (¬(et > 7/10 ∨ sc = "Extreme") ∧ ¬(et > 1/2 ∨ sc = "High") ∧
       ¬(et > 3/10 ∨ sc = "Moderate"))) ∧
    threat_level (1/10) "Extreme" = "EXTREME" := by
  have h := threat_level_cases et sc
  exact ⟨rfl, h.1, h.2.1, h.2.2.1, h.2.2.2, by norm_num [threat_level]⟩

/-- C3: the occurrence probability is the clamped product
`min(1, severity_index * crown_fire_score / 100)` and lies in `[0,1]`
whenever severity index and crown score are non-negative; at
`severity_index = 1`, `crown_fire_score = 100` it is exactly 1. -/
theorem occurrence_probability_bounded (si cs : ℚ) (hsi : 0 ≤ si)
    (hcs : 0 ≤ cs) :
    occurrence_probability si cs = min 1 (si * (cs / 100)) ∧
    0 ≤ occurrence_probability si cs ∧
    occurrence_probability si cs ≤ 1 ∧
    occurrence_probability 1 100 = 1 := by
  refine ⟨rfl, ?_, min_le_left _ _, by norm_num [occurrence_probability]⟩
  unfold occurrence_probability
  have : 0 ≤ si * (cs / 100) := by positivity
  exact le_min zero_le_one this

/-- Witness for C3 at `severity_index = 1`, `crown_fire_score = 100`. -/
theorem occurrence_probability_bounded_witness :
    0 ≤ occurrence_probability 1 100 ∧ occurrence_probability 1 100 ≤ 1 :=
  ⟨(occurrence_probability_bounded 1 100 zero_le_one (by simp)).2.1,
   (occurrence_probability_bounded 1 100 zero_le_one (by simp)).2.2.1⟩

/-- C4: the concern list of `assess_threat` contains exactly the flags whose
conditions hold, each evaluated independently, always in the fixed order
crown fire, spotting, rapid spread, suppression; on the spec's example
inputs it is exactly the full four-element list. -/
theorem assess_threat_key_concerns_exact (m : FireBehaviorMetrics)
    (cs sd tb : ℚ) (c : String) :
    (assess_threat m).key_concerns
        = key_concerns m.crown_fire_score m.spotting_distance_km
            m.time_to_burn_5km2_hours m.containment_difficulty ∧
    ("High crown fire potential" ∈ key_concerns cs sd tb c ↔ cs > 60) ∧
    ("Long-range spotting risk" ∈ key_concerns cs sd tb c ↔ sd > 2) ∧
    ("Rapid fire spread" ∈ key_concerns cs sd tb c ↔ tb < 2) ∧
    ("Difficult suppression conditions" ∈ key_concerns cs sd tb c ↔
      (c = "Hard" ∨ c = "Very difficult")) ∧
    List.Sublist (key_concerns cs sd tb c)
      ["High crown fire potential", "Long-range spotting risk",
       "Rapid fire spread", "Difficult suppression conditions"] ∧
    key_concerns 70 3 1 "Hard"
      = ["High crown fire potential", "Long-range spotting risk",
         "Rapid fire spread", "Difficult suppression conditions"] := by
  refine ⟨rfl, ?_, ?_, ?_, ?_, ?_, by norm_num [key_concerns]⟩ <;>
    by_cases h1 : cs > 60 <;>
    by_cases h2 : sd > 2 <;>
    by_cases h3 : tb < 2 <;>
    by_cases h4 : c = "Hard" ∨ c = "Very difficult" <;>
    simp [key_concerns, h1, h2, h3, h4]

/- ----------------------------------------------------------------------
   Rate-of-spread floor
   `wildfire_inference_system.py` `_predict_ros` line 161:
     ros_prediction = max(0.01, ros_prediction)
   The physics module defining `effective_ros` is loaded dynamically and is
   not part of the repository snapshot.
   ---------------------------------------------------------------------- -/

/-- The clamp applied to the raw model output in `_predict_ros`
(line 161): `max(0.01, ros_prediction)`. -/
def predict_ros_clamp (ros_prediction : ℚ) : ℚ :=
  max (1/100) ros_prediction

/-- Modelled from the spec: `effective_ros(ros_base, slope_pct, aspect_deg)`
belongs to the external physics module
(`live_api-Inference-follow_data.py`), which is not in the repository
snapshot.  The spec defines it as
`ros_base * slope_multiplier(slope_pct) * aspect_factor(aspect_deg)`,
"floored at the same positive minimum as ros_base" (0.01).  The two factor
functions are likewise external, so they are taken as arbitrary function
parameters; the floor is what the spec pins down. -/
def effective_ros (slope_mul aspect_fac : ℚ → ℚ)
    (ros_base slope_pct aspect_deg : ℚ) : ℚ :=
  max (1/100) (ros_base * slope_mul slope_pct * aspect_fac aspect_deg)

/-- C5: every rate-of-spread value is floored at 0.01 m/min: the clamp of
`_predict_ros` guarantees `≥ 0.01 > 0` for any raw model output, and the
spec-modelled `effective_ros` is floored at the same minimum for every
choice of slope-multiplier and aspect-factor function, so no downstream
formula ever sees a zero or negative ROS. -/
theorem ros_floor_invariant :
    (∀ r : ℚ, 1/100 ≤ predict_ros_clamp r ∧ 0 < predict_ros_clamp r) ∧
    (∀ (sm af : ℚ → ℚ) (ros s a : ℚ),
      1/100 ≤ effective_ros sm af ros s a ∧
      0 < effective_ros sm af ros s a) := by
  constructor
  · intro r
    have h : (1:ℚ)/100 ≤ max (1/100) r := le_max_left _ _
    exact ⟨h, lt_of_lt_of_le (by norm_num) h⟩
  · intro sm af ros s a
    have h : (1:ℚ)/100 ≤ max (1/100) (ros * sm s * af a) := le_max_left _ _
    exact ⟨h, lt_of_lt_of_le (by norm_num) h⟩

/- ----------------------------------------------------------------------
   Fire-behavior computation
   `wildfire_inference_system.py` `_calculate_fire_behavior`
   (lines 166-247).  The physics formulas it calls live in the dynamically
   loaded external module, so they are passed in as an explicit record of
   functions; the composition and the record of outputs mirror the source.
   ---------------------------------------------------------------------- -/

/-- The feature dict consumed by `_calculate_fire_behavior`
(keys from `get_live_features`). -/
structure FeatureSet where
  temp_c : ℚ
  rel_humidity_pct : ℚ
  wind_speed_ms : ℚ
  precip_mm : ℚ
  vpd_kpa : ℚ
  fwi : ℚ
  ndvi : ℚ
  ndmi : ℚ
  lfmc_proxy_pct : ℚ
  elevation_m : ℚ
  slope_pct : ℚ
  aspect_deg : ℚ
deriving DecidableEq, Repr

/-- The formula functions of the external physics module, as an explicit
interface record (the module is loaded dynamically by the source and is
not in the repository snapshot). -/
structure PhysicsFormulas where
  fuel_load_from_ndvi : ℚ → ℚ
  fuel_moisture_from_ndvi_ndmi : ℚ → ℚ → ℚ
  slope_multiplier : ℚ → ℚ
  aspect_factor : ℚ → ℚ
  effective_ros : ℚ → ℚ → ℚ → ℚ
  byram_intensity_kWm : ℚ → ℚ → ℚ
  flame_length_m : ℚ → ℚ
  severity_index : ℚ → ℚ
  severity_class : ℚ → String
  crown_fire_score : ℚ → ℚ → ℚ → ℚ
  crown_fire_class : ℚ → String
  spotting_distance_km : ℚ → ℚ → ℚ
  time_to_burn_window_hours : ℚ → ℚ → ℚ
  damage_in_window_rs : ℚ → ℚ → ℚ → ℚ
  containment_difficulty : ℚ → ℚ → ℚ → String
  expected_threat : ℚ → ℚ → ℚ

/-- `WildfireInferenceSystem._calculate_fire_behavior` (lines 166-247):
the deterministic composition of the physics formulas over the feature
dict and the (already clamped) base ROS, packaged into the metrics
record.  Constants as in the source: 5 km² burn window, 50000 Rs per
hectare, 2 km to road. -/
def compute_fire_behavior (P : PhysicsFormulas) (f : FeatureSet)
    (ros_m_min : ℚ) : FireBehaviorMetrics :=
  let fuel_load := P.fuel_load_from_ndvi f.ndvi
  let fuel_moisture := P.fuel_moisture_from_ndvi_ndmi f.ndvi f.ndmi
  let slope_mult := P.slope_multiplier f.slope_pct
  let aspect_fact := P.aspect_factor f.aspect_deg
  let ros_effective := P.effective_ros ros_m_min f.slope_pct f.aspect_deg
  let intensity := P.byram_intensity_kWm ros_effective fuel_load
  let flame_length := P.flame_length_m intensity
  let severity_idx := P.severity_index flame_length
  let severity_cls := P.severity_class flame_length
  let crown_score := P.crown_fire_score intensity f.wind_speed_ms f.ndvi
  let crown_cls := P.crown_fire_class crown_score
  let spotting_dist := P.spotting_distance_km f.wind_speed_ms flame_length
  let burn_time_5km2 := P.time_to_burn_window_hours ros_effective 5
  let damage_estimate := P.damage_in_window_rs ros_effective 50000 5
  let containment := P.containment_difficulty flame_length f.slope_pct 2
  let occurrence_prob := occurrence_probability severity_idx crown_score
  let expected_threat_score := P.expected_threat occurrence_prob severity_idx
  { ros_base_m_per_min := ros_m_min
    ros_effective_m_per_min := ros_effective
    slope_multiplier := slope_mult
    aspect_factor := aspect_fact
    fuel_load_kg_m2 := fuel_load
    fuel_moisture_pct := fuel_moisture
    intensity_kW_per_m := intensity
    flame_length_m := flame_length
    severity_index := severity_idx
    severity_class := severity_cls
    crown_fire_score := crown_score
    crown_fire_class := crown_cls
    spotting_distance_km := spotting_dist
    time_to_burn_5km2_hours := burn_time_5km2
    damage_estimate_rs := damage_estimate
    containment_difficulty := containment
    occurrence_probability := occurrence_prob
    expected_threat := expected_threat_score }

/-- C8: `compute_fire_behavior` is deterministic and stateless: it is a
pure function of the physics interface, the feature set and the base ROS,
so two runs on equal inputs — in the same session or interleaved with
other requests — return identical metrics. -/
theorem compute_fire_behavior_deterministic (P : PhysicsFormulas)
    (f₁ f₂ : FeatureSet) (r₁ r₂ : ℚ) (hf : f₁ = f₂) (hr : r₁ = r₂) :
    compute_fire_behavior P f₁ r₁ = compute_fire_behavior P f₂ r₂ := by
  rw [hf, hr]

/-- A trivial concrete physics interface for the C8 witness. -/
def constPhysics : PhysicsFormulas where
  fuel_load_from_ndvi := fun _ => 1
  fuel_moisture_from_ndvi_ndmi := fun _ _ => 1
  slope_multiplier := fun _ => 1
  aspect_factor := fun _ => 1
  effective_ros := fun r _ _ => r
  byram_intensity_kWm := fun _ _ => 1
  flame_length_m := fun _ => 1
  severity_index := fun _ => 1
  severity_class := fun _ => "Low"
  crown_fire_score := fun _ _ _ => 1
  crown_fire_class := fun _ => "Low"
  spotting_distance_km := fun _ _ => 1
  time_to_burn_window_hours := fun _ _ => 1
  damage_in_window_rs := fun _ _ _ => 1
  containment_difficulty := fun _ _ _ => "Easy"
  expected_threat := fun _ _ => 1

/-- The fallback feature values of `get_live_features`
(`wildfire_inference_system.py` lines 26-32), as a concrete sample. -/
def sampleFeatures : FeatureSet where
  temp_c := 25
  rel_humidity_pct := 50
  wind_speed_ms := 5
  precip_mm := 0
  vpd_kpa := 3/2
  fwi := 10
  ndvi := 1/2
  ndmi := 3/10
  lfmc_proxy_pct := 100
  elevation_m := 500
  slope_pct := 10
  aspect_deg := 180

/-- Witness for C8 at a concrete physics interface, feature set and ROS. -/
theorem compute_fire_behavior_deterministic_witness :
    compute_fire_behavior constPhysics sampleFeatures 1
      = compute_fire_behavior constPhysics sampleFeatures 1 :=
  compute_fire_behavior_deterministic constPhysics sampleFeatures
    sampleFeatures 1 1 rfl rfl

/- ----------------------------------------------------------------------
   The lightweight predictor
   `simple_predict.py` `WildfirePredictor`: `get_lightning_data`
   (lines 54-73) and `predict_dict` (lines 120-167); the scalar variant
   `WildfirePredictionAPI.get_lightning_data` (`wildfire_model.py`
   lines 120-145).  Network calls are modelled by an `Except` parameter:
   `Except.error` is any raised exception, `Except.ok resp` is a parsed
   response whose lightning list is `resp` (missing or empty `response`
   key both become the empty list).
   ---------------------------------------------------------------------- -/

/-- The weather dict returned by `get_weather_data` on success. -/
structure Weather where
  tmax_c : ℚ
  rh_pct : ℚ
  ws_mean_mps : ℚ
  precip_mm_24h : ℚ
  vpd_kpa : ℚ
deriving DecidableEq, Repr

/-- `WildfirePredictor.get_lightning_data` (lines 54-73): on a successful
response with at least one strike return `(1, count)`, on a successful
empty response return `(0, 0)`, and on any exception return `(0, 0)` as
well (bare `except` clause). -/
def get_lightning_data (api : Except String (List Unit)) : ℕ × ℕ :=
  match api with
  | Except.ok resp => if resp.length > 0 then (1, resp.length) else (0, 0)
  | Except.error _ => (0, 0)

/-- `WildfirePredictionAPI.get_lightning_data` (`wildfire_model.py` lines
120-145): the scalar variant, returning 0 on any exception. -/
def api_get_lightning_data (api : Except String (List Unit)) : ℕ :=
  match api with
  | Except.ok resp => if resp.length > 0 then 1 else 0
  | Except.error _ => 0

/-- Python `round(x, 2)`: rounding to two decimal places (tie behaviour of
binary floats abstracted to the rational rounding of `round`). -/
def round2 (x : ℚ) : ℚ :=
  (round (x * 100) : ℚ) / 100

/-- The successful result dict of `predict_dict` (fields that are not
echoes of the wall clock). -/
structure PredictRecord where
  weather : Weather
  lightning_detected : Bool
  strike_count_24h : ℕ
  fire_risk_percentage : ℚ
  risk_level : String
  fire_expected : Bool
deriving DecidableEq, Repr

/-- The value returned by `predict_dict`: either a dict with an `error`
key, or the full result dict. -/
inductive PredictResult where
  | error (msg : String)
  | ok (r : PredictRecord)
deriving DecidableEq, Repr

/-- `true` exactly on the `error` dict. -/
def PredictResult.isError : PredictResult → Bool
  | PredictResult.error _ => true
  | PredictResult.ok _ => false

/-- `WildfirePredictor.predict_dict` (lines 120-167).  The weather fetch
and the model are oracles passed as parameters: the model receives the
weather features and the lightning flag and returns `(probability,
prediction)` or raises.  A weather error is returned as an error dict; a
model exception is returned as an error dict prefixed
`"Model prediction failed: "`; otherwise the full result dict is built,
with the risk level from `classify_risk`. -/
def predict_dict (weather : Except String Weather)
    (lightning_api : Except String (List Unit))
    (model : Weather → ℕ → Except String (ℚ × ℕ)) : PredictResult :=
  match weather with
  | Except.error e => PredictResult.error e
  | Except.ok w =>
    let ld := get_lightning_data lightning_api
    match model w ld.1 with
    | Except.error e =>
        PredictResult.error ("Model prediction failed: " ++ e)
    | Except.ok (probability, prediction) =>
        PredictResult.ok
          { weather := w
            lightning_detected := ld.1 != 0
            strike_count_24h := ld.2
            fire_risk_percentage := round2 (probability * 100)
            risk_level := classify_risk probability
            fire_expected := prediction != 0 }

/-- C10: a lightning-API failure is silently defaulted: any exception makes
`get_lightning_data` return `(0, 0)` — the exact value of a successful
response with no strikes — so `predict_dict` proceeds with lightning 0 and
its output is indistinguishable from a genuine absence of lightning; the
scalar variant in `wildfire_model.py` likewise defaults to 0. -/
theorem lightning_failure_silent_default (e : String) (w : Weather)
    (model : Weather → ℕ → Except String (ℚ × ℕ)) :
    get_lightning_data (Except.error e) = (0, 0) ∧
    get_lightning_data (Except.ok []) = (0, 0) ∧
    predict_dict (Except.ok w) (Except.error e) model
      = predict_dict (Except.ok w) (Except.ok []) model ∧
    api_get_lightning_data (Except.error e) = 0 :=
  ⟨rfl, rfl, rfl, rfl⟩

/-- Concrete weather sample for the error-propagation statements. -/
def sampleWeather : Weather where
  tmax_c := 30
  rh_pct := 40
  ws_mean_mps := 5
  precip_mm_24h := 0
  vpd_kpa := 2

/-- A model oracle that always succeeds with probability 1/2. -/
def sampleModel : Weather → ℕ → Except String (ℚ × ℕ) :=
  fun _ _ => Except.ok (1/2, 0)

/-- A model oracle that always raises. -/
def failModel : Weather → ℕ → Except String (ℚ × ℕ) :=
  fun _ _ => Except.error "boom"

/-- C7 counterexample: not every feature-provider failure is propagated as
a distinct error: a lightning-provider failure produces the very same
non-error result as a genuine absence of lightning, so the caller cannot
distinguish the two. -/
theorem oracle_failure_counterexample :
    predict_dict (Except.ok sampleWeather) (Except.error "timeout")
        sampleModel
      = predict_dict (Except.ok sampleWeather) (Except.ok []) sampleModel ∧
    (predict_dict (Except.ok sampleWeather) (Except.error "timeout")
        sampleModel).isError = false :=
  ⟨rfl, rfl⟩

/-- C7 amended: a weather-fetch failure and a model failure are each
propagated as distinct error records (the model error carrying the
`"Model prediction failed: "` stage prefix), but a lightning
feature-provider failure is silently defaulted and indistinguishable from
no lightning. -/
theorem oracle_failure_propagation (e em : String) (w : Weather)
    (lapi : Except String (List Unit))
    (model : Weather → ℕ → Except String (ℚ × ℕ))
    (hm : model w (get_lightning_data lapi).1 = Except.error em) :
    predict_dict (Except.error e) lapi model = PredictResult.error e ∧
    predict_dict (Except.ok w) lapi model
      = PredictResult.error ("Model prediction failed: " ++ em) ∧
    predict_dict (Except.ok w) (Except.error e) model
      = predict_dict (Except.ok w) (Except.ok []) model := by
  refine ⟨rfl, ?_, rfl⟩
  show (match model w (get_lightning_data lapi).1 with
    | Except.error e => PredictResult.error ("Model prediction failed: " ++ e)
    | Except.ok (probability, prediction) =>
        PredictResult.ok
          { weather := w
            lightning_detected := (get_lightning_data lapi).1 != 0
            strike_count_24h := (get_lightning_data lapi).2
            fire_risk_percentage := round2 (probability * 100)
            risk_level := classify_risk probability
            fire_expected := prediction != 0 })
      = PredictResult.error ("Model prediction failed: " ++ em)
  rw [hm]

/-- Witness for the amended C7 with a concretely failing model oracle. -/
theorem oracle_failure_propagation_witness :
    predict_dict (Except.error "Error: conn") (Except.ok []) failModel
      = PredictResult.error "Error: conn" ∧
    predict_dict (Except.ok sampleWeather) (Except.ok []) failModel
      = PredictResult.error ("Model prediction failed: " ++ "boom") :=
  ⟨(oracle_failure_propagation "Error: conn" "boom" sampleWeather
      (Except.ok []) failModel rfl).1,
   (oracle_failure_propagation "Error: conn" "boom" sampleWeather
      (Except.ok []) failModel rfl).2.1⟩

/- ----------------------------------------------------------------------
   HTTP routes
   `app_fixed.py`: `predict_route` (lines 41-54) and
   `analyze_threat_route` (lines 56-108).  A query parameter is either
   absent (`request.args.get` returns None), present but rejected by
   `float()`, or a parsed float.
   ---------------------------------------------------------------------- -/

/-- One of the query parameters `lat` / `lon`. -/
inductive Arg where
  | missing
  | malformed
  | value (q : ℚ)
deriving DecidableEq, Repr

/-- `predict_route` (`app_fixed.py` lines 41-54): 400 when `lat` or `lon`
is absent, 400 when `float()` rejects one of them, and otherwise the
result of `predict_dict` — whatever it is, an error dict included — is
returned with the Flask default status 200.  The result the predictor
would produce is passed in as `result`; the pair is (status, body). -/
def predict_route (lat lon : Arg) (result : PredictResult) :
    ℕ × Option PredictResult :=
  match lat, lon with
  | Arg.missing, _ => (400, none)
  | _, Arg.missing => (400, none)
  | Arg.malformed, _ => (400, none)
  | _, Arg.malformed => (400, none)
  | Arg.value _, Arg.value _ => (200, some result)

/-- The status code of `analyze_threat_route` (`app_fixed.py` lines
56-108): 400 for a missing or unparsable parameter, 500 when the
comprehensive threat pipeline raises (the `except` branch), 200 on
success.  The pipeline outcome is the `threat` parameter. -/
def analyze_threat_status (lat lon : Arg)
    (threat : Except String Unit) : ℕ :=
  match lat, lon with
  | Arg.missing, _ => 400
  | _, Arg.missing => 400
  | Arg.malformed, _ => 400
  | _, Arg.malformed => 400
  | Arg.value _, Arg.value _ =>
    match threat with
    | Except.ok _ => 200
    | Except.error _ => 500

/-- C6 counterexample: a `/predict` request with valid coordinates whose
underlying prediction fails internally is answered with status 200 (the
error dict is passed to `jsonify` with the default status), not 500. -/
theorem predict_route_error_status_counterexample :
    (predict_route (Arg.value 19) (Arg.value 72)
        (PredictResult.error "Model prediction failed: boom")).1 = 200 ∧
    (predict_route (Arg.value 19) (Arg.value 72)
        (PredictResult.error "Model prediction failed: boom")).1 ≠ 500 :=
  ⟨rfl, by decide⟩

/-- C6 amended: a missing or non-float `lat`/`lon` is answered 400 on both
endpoints; an internal failure of the threat pipeline on `/analyze-threat`
is answered 500; but on `/predict` an internal prediction failure is
answered 200 with the error dict as body; 400 and 500 are the only error
statuses used. -/
theorem route_status_codes (lat lon : Arg) (r : PredictResult)
    (t : Except String Unit) :
    ((lat = Arg.missing ∨ lon = Arg.missing ∨ lat = Arg.malformed ∨
        lon = Arg.malformed) →
      (predict_route lat lon r).1 = 400 ∧
      analyze_threat_status lat lon t = 400) ∧
    (∀ a b : ℚ, lat = Arg.value a → lon = Arg.value b →
      (predict_route lat lon r).1 = 200 ∧
      (predict_route lat lon r).2 = some r) ∧
    (∀ (a b : ℚ) (e : String), lat = Arg.value a → lon = Arg.value b →
      t = Except.error e → analyze_threat_status lat lon t = 500) ∧
    ((predict_route lat lon r).1 = 200 ∨ (predict_route lat lon r).1 = 400) ∧
    (analyze_threat_status lat lon t = 200 ∨
     analyze_threat_status lat lon t = 400 ∨
     analyze_threat_status lat lon t = 500) := by
  cases lat <;> cases lon <;> cases t <;>
    simp [predict_route, analyze_threat_status]

/-- Witness for the amended C6: a request missing both parameters is
answered 400, and a valid request whose threat pipeline raises is answered
500 on `/analyze-threat`. -/
theorem route_status_codes_witness :
    (predict_route Arg.missing Arg.missing
        (PredictResult.error "x")).1 = 400 ∧
    analyze_threat_status (Arg.value 1) (Arg.value 2)
        (Except.error "boom") = 500 :=
  ⟨((route_status_codes Arg.missing Arg.missing (PredictResult.error "x")
      (Except.ok ())).1 (Or.inl rfl)).1,
   (route_status_codes (Arg.value 1) (Arg.value 2) (PredictResult.error "x")
      (Except.error "boom")).2.2.1 1 2 "boom" rfl rfl rfl⟩
